import Mathlib

/-!
Shallow embedding of the Ermangizer Modbus RTU decoder
(src/src/ermangizer-modbus.ts) and verification of its specification.

Bytes are modelled as `Nat` (each produced byte is `< 256` by construction);
JS numeric register values are modelled as `ℚ` where fractional scaling
occurs.  Fallible operations return `Except DecodeError α`.  The capture
timestamp `new Date().toISOString()` is modelled by an explicit `now : String`
parameter threaded into the decoder.
-/

set_option maxRecDepth 8000

namespace Ermangizer

/-- A register descriptor, mirroring the `ModbusRegister` interface:
address, name, unit, description, readOnly, optional scale. -/
structure ModbusRegister where
  address : Nat
  name : String
  unit : String
  description : String
  readOnly : Bool
  scale : Option ℚ
deriving DecidableEq, Repr

/-- The `MODBUS_REGISTERS` table: a partial map from 16-bit register
address to descriptor, with exactly the 22 entries of the source. -/
def MODBUS_REGISTERS : Nat → Option ModbusRegister := fun a =>
  match a with
  | 0x0001 => some ⟨0x0001, "output_frequency", "0.1 Hz", "Current output frequency value", true, some (1/10)⟩
  | 0x0002 => some ⟨0x0002, "output_current", "0.1 A", "Current output current value", true, some (1/10)⟩
  | 0x0003 => some ⟨0x0003, "input_voltage", "V", "Current input voltage value", true, none⟩
  | 0x0004 => some ⟨0x0004, "temperature", "°C", "Current temperature display", true, none⟩
  | 0x0005 => some ⟨0x0005, "pressure", "0.01 bar", "Actual pressure value", true, some (1/100)⟩
  | 0x0006 => some ⟨0x0006, "error_code", "", "Error code", true, none⟩
  | 0x0007 => some ⟨0x0007, "status_code", "", "Status code", true, none⟩
  | 0x0010 => some ⟨0x0010, "factory_reset", "", "Restore factory settings", false, none⟩
  | 0x0011 => some ⟨0x0011, "initial_pressure_diff", "0.01 bar", "Initial pressure difference", false, some (1/100)⟩
  | 0x0012 => some ⟨0x0012, "water_shortage_pressure", "0.01 bar", "Pressure value during water shortage", false, some (1/100)⟩
  | 0x0013 => some ⟨0x0013, "water_shortage_time", "s", "Water shortage time", false, none⟩
  | 0x0014 => some ⟨0x0014, "carrier_frequency", "", "Carrier frequency", false, none⟩
  | 0x0015 => some ⟨0x0015, "accel_decel_time", "0.1 ms", "Acceleration and deceleration time", false, some (1/10)⟩
  | 0x0016 => some ⟨0x0016, "pressure_tolerance", "0.01 bar", "Allowable pressure error", false, some (1/100)⟩
  | 0x0017 => some ⟨0x0017, "min_shutdown_freq", "0.1 Hz", "Minimum shutdown frequency", false, some (1/10)⟩
  | 0x0018 => some ⟨0x0018, "continuous_operation", "", "Enable continuous operation", false, none⟩
  | 0x0019 => some ⟨0x0019, "measurement_range", "bar", "Measurement range selection", false, none⟩
  | 0x0020 => some ⟨0x0020, "overheat_setting", "°C", "Overheat setting", false, none⟩
  | 0x0021 => some ⟨0x0021, "direction_setting", "", "Set direction", false, none⟩
  | 0x0022 => some ⟨0x0022, "local_address", "", "Local address", false, none⟩
  | 0x1000 => some ⟨0x1000, "set_pressure", "0.01 BAR", "Set pressure value", false, some (1/100)⟩
  | 0x1001 => some ⟨0x1001, "status_command", "", "Command status code", false, none⟩
  | _ => none

/-- The `ERROR_CODES` table: error codes 0–16 and their texts. -/
def ERROR_CODES : Nat → Option String := fun c =>
  match c with
  | 0 => some "No error"
  | 1 => some "Equipment overcurrent, short circuit"
  | 2 => some "Overload"
  | 3 => some "Low pressure (no pressure sensor)"
  | 4 => some "Overpressure"
  | 5 => some "Low pressure"
  | 6 => some "Overpressure"
  | 7 => some "Phase loss (power phase loss)"
  | 8 => some "Overheating"
  | 9 => some "Insufficient power"
  | 10 => some "Software current overload"
  | 11 => some "Communication failure"
  | 12 => some "Default"
  | 13 => some "Motor locked"
  | 14 => some "Motor phase loss"
  | 15 => some "Motor overspeed"
  | 16 => some "Memory failure (FLASH failure)"
  | _ => none

/-- One inner round of `calculateCRC16`: if the low bit is set, shift right
one bit and XOR with `0xA001`, else just shift right. -/
def crc16Round (crc : Nat) : Nat :=
  if crc % 2 = 1 then (crc / 2) ^^^ 0xA001 else crc / 2

/-- One byte step of `calculateCRC16`: XOR the byte into the accumulator
(`crc ^= data[i]`), then apply eight inner rounds. -/
def crc16Byte (crc b : Nat) : Nat :=
  crc16Round^[8] (crc ^^^ b)

/-- `calculateCRC16`: fold the byte step over the data starting from
`0xFFFF`. -/
def calculateCRC16 (data : List Nat) : Nat :=
  data.foldl crc16Byte 0xFFFF

/-- `verifyCRC`: false for fewer than 2 bytes; otherwise compare the CRC of
everything but the last two bytes against the little-endian 16-bit integer
formed by those last two bytes (`readUInt16LE(length - 2)`). -/
def verifyCRC (data : List Nat) : Bool :=
  if data.length < 2 then false
  else
    let messageWithoutCRC := data.take (data.length - 2)
    let receivedCRC := data.getD (data.length - 2) 0 + 256 * data.getD (data.length - 1) 0
    let calculatedCRC := calculateCRC16 messageWithoutCRC
    decide (receivedCRC = calculatedCRC)

/-- The typed failures of a decode call.  `inputFormat`, `frameTooShort` and
`checksum` carry the message texts of the source's `throw new Error(...)`
sites; `outOfRange` models the `ERR_OUT_OF_RANGE` exception Node's
`Buffer.readUInt16BE` raises when a read extends past the buffer. -/
inductive DecodeError where
  | inputFormat (message : String)
  | frameTooShort (message : String)
  | checksum (message : String)
  | outOfRange
deriving DecidableEq, Repr

/-- The possible runtime shapes of `decodeModbusMessage`'s input: a byte
buffer, a string, an array of JS integers, or anything else. -/
inductive ModbusInput where
  | buffer (data : List Nat)
  | hexString (s : String)
  | numberArray (a : List Int)
  | other
deriving DecidableEq, Repr

/-- Hex digit value of a character, case-insensitive. -/
def hexCharVal (c : Char) : Option Nat :=
  if '0' ≤ c ∧ c ≤ '9' then some (c.toNat - '0'.toNat)
  else if 'a' ≤ c ∧ c ≤ 'f' then some (c.toNat - 'a'.toNat + 10)
  else if 'A' ≤ c ∧ c ≤ 'F' then some (c.toNat - 'A'.toNat + 10)
  else none

/-- `Buffer.from(hexString, 'hex')`: parse adjacent digit pairs into bytes,
stopping silently at the first pair containing a non-hex character
(Node truncates there rather than failing). -/
def parseHexPairs : List Char → List Nat
  | c1 :: c2 :: rest =>
    match hexCharVal c1, hexCharVal c2 with
    | some h, some l => (16 * h + l) :: parseHexPairs rest
    | _, _ => []
  | _ => []

/-- `input.replace(/\s/g, '')`: drop all whitespace characters. -/
def stripWhitespace (s : String) : List Char :=
  s.toList.filter (fun c => !c.isWhitespace)

/-- `inputToBuffer`: a buffer passes through; a string is stripped of
whitespace, rejected when its digit count is odd, and hex-parsed otherwise;
an array becomes bytes by the `Buffer.from(array)` truncation of each
element modulo 256; any other input is rejected. -/
def inputToBuffer (input : ModbusInput) : Except DecodeError (List Nat) :=
  match input with
  | .buffer data => .ok data
  | .hexString s =>
    let hexString := stripWhitespace s
    if hexString.length % 2 ≠ 0 then
      .error (.inputFormat "Invalid hex string length")
    else
      .ok (parseHexPairs hexString)
  | .numberArray a => .ok (a.map (fun v => (v % 256).toNat))
  | .other => .error (.inputFormat "Unsupported input type. Expected Buffer, hex string or number array.")

/-- The shapes returned by `decodeRegisterValue` — one constructor per
object literal the source can return. -/
inductive DecodedValue where
  | generic (value : ℚ) (raw_value : Nat)
  | errorCode (code : Nat) (description : String) (raw_value : Nat)
  | statusFlags (water_shortage running : Bool) (raw_value : Nat)
  | carrierFreq (value : String) (code : Nat) (raw_value : Nat)
  | statusCommand (code : Nat) (description : String) (raw_value : Nat)
  | measurementRange (value : String) (code : Nat) (raw_value : Nat)
deriving DecidableEq, Repr

/-- `decodeStatusRegister`: bit 0 is `water_shortage`, bit 1 is `running`. -/
def decodeStatusRegister (status : Nat) : DecodedValue :=
  .statusFlags (decide (status &&& 0x0001 ≠ 0)) (decide (status &&& 0x0002 ≠ 0)) status

/-- `Number(x.toFixed(3))`: round to 3 fractional decimal digits
(ties away from zero for the nonnegative values arising here). -/
def round3 (q : ℚ) : ℚ :=
  (round (q * 1000) : ℤ) / 1000

/-- `decodeRegisterValue`: the scaled generic value is computed first
(`if (register.scale)` is a JS truthiness test, so a zero scale behaves
like no scale); the switch on the register's address then overrides it for
the five special addresses, and the generic shape is returned otherwise. -/
def decodeRegisterValue (register : ModbusRegister) (rawValue : Nat) : DecodedValue :=
  let value : ℚ :=
    match register.scale with
    | some s => if s ≠ 0 then round3 (rawValue * s) else (rawValue : ℚ)
    | none => (rawValue : ℚ)
  match register.address with
  | 0x0006 => .errorCode rawValue ((ERROR_CODES rawValue).getD "Unknown error") rawValue
  | 0x0007 => decodeStatusRegister rawValue
  | 0x0014 => .carrierFreq (if rawValue = 72 then "H" else "L") rawValue rawValue
  | 0x1001 =>
    let statusMap : Option String :=
      match rawValue with
      | 0x00 => some "invalid"
      | 0x01 => some "running"
      | 0x04 => some "stop"
      | 0x11 => some "error reset"
      | _ => none
    .statusCommand rawValue (statusMap.getD "Unknown status") rawValue
  | 0x0019 =>
    let rangeMap : Option String :=
      match rawValue with
      | 6 => some "6 bar"
      | 10 => some "10 bar"
      | 16 => some "16 bar"
      | 25 => some "25 bar"
      | _ => none
    .measurementRange (rangeMap.getD ("Unknown (" ++ toString rawValue ++ ")")) rawValue rawValue
  | _ => .generic value rawValue

/-- `getFunctionName`: the fixed {3, 6, 131} table with an
`Unknown (<code>)` default. -/
def getFunctionName (code : Nat) : String :=
  match code with
  | 3 => "Read Holding Registers"
  | 6 => "Write Single Register"
  | 131 => "Error Response"
  | _ => "Unknown (" ++ toString code ++ ")"

/-- Uppercase hex digit of a value below 16. -/
def hexDigitUpper (n : Nat) : Char :=
  (("0123456789ABCDEF").toList.getD n '0')

/-- Lowercase hex digit of a value below 16. -/
def hexDigitLower (n : Nat) : Char :=
  (("0123456789abcdef").toList.getD n '0')

/-- `buffer.toString('hex').toUpperCase()`: two uppercase hex digits per
byte, no separators. -/
def bufferToHexUpper (data : List Nat) : String :=
  String.mk (data.foldr (fun b acc => hexDigitUpper (b / 16) :: hexDigitUpper (b % 16) :: acc) [])

/-- `n.toString(16)`: lowercase hex representation, most significant digit
first (`Nat.toDigits 16` produces exactly JS's lowercase hex digits). -/
def natToHexLower (n : Nat) : String :=
  String.mk (Nat.toDigits 16 n)

/-- `s.padStart(len, c)`. -/
def padStart (s : String) (len : Nat) (c : Char) : String :=
  String.mk (List.replicate (len - s.length) c) ++ s

/-- `buffer.readUInt16BE(off)`: big-endian 16-bit read, raising
`ERR_OUT_OF_RANGE` when the two bytes do not fit in the buffer. -/
def readUInt16BE (data : List Nat) (off : Nat) : Except DecodeError Nat :=
  if off + 2 ≤ data.length then .ok (256 * data.getD off 0 + data.getD (off + 1) 0)
  else .error .outOfRange

/-- One entry of the `result.registers` object: the decoded-value fields
spread first, then `unit`, `description`, `address`; `read_only` is present
for table-known registers only, and `operation` only on the 0x06 path. -/
structure RegEntry where
  val : DecodedValue
  unit : String
  description : String
  address : Nat
  read_only : Option Bool
  operation : Option String
deriving DecidableEq, Repr

/-- The error object of an exception response. -/
structure ModbusError where
  code : Nat
  description : String
  modbus_error : Bool
deriving DecidableEq, Repr

/-- The `DecodedData` result object built by `decodeModbusMessage`:
`registers` is kept as an insertion-ordered key/value list (all keys
produced in one call are distinct). -/
structure DecodedData where
  slave_address : Nat
  function_code : Nat
  function_name : String
  raw_data : String
  timestamp : String
  registers : List (String × RegEntry)
  error : Option ModbusError
deriving DecidableEq, Repr

/-- The `registers` entry inserted by the 0x03 path for register address
`registerAddress` holding raw value `registerValue`. -/
def fc03Entry (registerAddress registerValue : Nat) : String × RegEntry :=
  match MODBUS_REGISTERS registerAddress with
  | some register =>
    (register.name,
      ⟨decodeRegisterValue register registerValue, register.unit, register.description,
        register.address, some register.readOnly, none⟩)
  | none =>
    ("unknown_0x" ++ padStart (natToHexLower registerAddress) 4 '0',
      ⟨.generic registerValue registerValue, "unknown", "Unknown register",
        registerAddress, none, none⟩)

/-- The loop of the 0x03 path: `for (let i = 0; i < byteCount / 2; i++)`,
where the bound is the JS real-number quotient, so the integer `i` iterates
exactly ⌈byteCount / 2⌉ times; `count` is the number of iterations left.
Each iteration reads a big-endian value at offset `3 + i * 2` (raising
`outOfRange` past the end) for register address `1 + i`. -/
def fc03Loop (buffer : List Nat) : Nat → Nat → Except DecodeError (List (String × RegEntry))
  | 0, _ => .ok []
  | count + 1, i => do
    let registerValue ← readUInt16BE buffer (3 + i * 2)
    let rest ← fc03Loop buffer count (i + 1)
    return fc03Entry (0x0001 + i) registerValue :: rest

/-- `decodeModbusMessage`: normalize the input, reject frames shorter than
4 bytes, verify the CRC, build the result header (including the capture
timestamp, passed in as `now`), then dispatch on the function code. -/
def decodeModbusMessage (now : String) (input : ModbusInput) :
    Except DecodeError DecodedData := do
  let buffer ← inputToBuffer input
  if buffer.length < 4 then throw (.frameTooShort "Message too short")
  else if !verifyCRC buffer then throw (.checksum "CRC check failed")
  else
    let slaveAddress := buffer.getD 0 0
    let functionCode := buffer.getD 1 0
    let result : DecodedData :=
      ⟨slaveAddress, functionCode, getFunctionName functionCode,
        bufferToHexUpper buffer, now, [], none⟩
    if functionCode = 0x03 then
      let byteCount := buffer.getD 2 0
      let regs ← fc03Loop buffer ((byteCount + 1) / 2) 0
      return { result with registers := regs }
    else if functionCode = 0x06 then
      let registerAddress ← readUInt16BE buffer 2
      let registerValue ← readUInt16BE buffer 4
      match MODBUS_REGISTERS registerAddress with
      | some register =>
        let entry : RegEntry :=
          ⟨decodeRegisterValue register registerValue, register.unit,
            register.description, registerAddress, some register.readOnly,
            some "write"⟩
        return { result with registers := [(register.name, entry)] }
      | none => return result
    else if functionCode = 0x83 then
      let errorCode := buffer.getD 2 0
      let errorDescriptions : Option String :=
        match errorCode with
        | 1 => some "Illegal Function"
        | 2 => some "Illegal Data Address"
        | 3 => some "Illegal Data Value"
        | 4 => some "Server Device Failure"
        | _ => none
      let err : ModbusError :=
        ⟨errorCode, "Modbus Error: " ++ errorDescriptions.getD "Unknown error", true⟩
      return { result with error := some err }
    else
      return result

/-! ## Helper lemmas -/

theorem crc16Round_lt {crc : Nat} (h : crc < 65536) : crc16Round crc < 65536 := by
  unfold crc16Round
  split
  · have h1 : crc / 2 < 2 ^ 16 := by omega
    have h2 : (0xA001 : Nat) < 2 ^ 16 := by norm_num
    have := Nat.xor_lt_two_pow h1 h2
    simpa using this
  · omega

theorem crc16Round_iter_lt (n : Nat) {crc : Nat} (h : crc < 65536) :
    crc16Round^[n] crc < 65536 := by
  induction n generalizing crc with
  | zero => simpa using h
  | succ k ih =>
    rw [Function.iterate_succ_apply]
    exact ih (crc16Round_lt h)

theorem crc16Byte_lt {crc b : Nat} (hc : crc < 65536) (hb : b < 256) :
    crc16Byte crc b < 65536 := by
  unfold crc16Byte
  apply crc16Round_iter_lt
  have h1 : crc < 2 ^ 16 := by omega
  have h2 : b < 2 ^ 16 := by omega
  have := Nat.xor_lt_two_pow h1 h2
  simpa using this

theorem foldl_crc16Byte_lt (data : List Nat) :
    ∀ init : Nat, init < 65536 → (∀ x ∈ data, x < 256) →
      data.foldl crc16Byte init < 65536 := by
  induction data with
  | nil => intro init hi _; simpa using hi
  | cons b rest ih =>
    intro init hi hall
    rw [List.foldl_cons]
    exact ih _ (crc16Byte_lt hi (hall b (by simp))) (fun x hx => hall x (by simp [hx]))

theorem calculateCRC16_lt {data : List Nat} (h : ∀ x ∈ data, x < 256) :
    calculateCRC16 data < 65536 :=
  foldl_crc16Byte_lt data 0xFFFF (by norm_num) h

theorem epure_ok {ε α : Type} (a : α) : (pure a : Except ε α) = Except.ok a := rfl

theorem ethrow_error {ε α : Type} (e : ε) : (throw e : Except ε α) = Except.error e := rfl

theorem ebind_ok {ε α β : Type} (a : α) (f : α → Except ε β) :
    (Except.ok a >>= f : Except ε β) = f a := rfl

theorem ebind_error {ε α β : Type} (e : ε) (f : α → Except ε β) :
    (Except.error e >>= f : Except ε β) = Except.error e := rfl

theorem emap_ok {ε α β : Type} (a : α) (f : α → β) :
    (f <$> (Except.ok a : Except ε α)) = Except.ok (f a) := rfl

theorem emap_error {ε α β : Type} (e : ε) (f : α → β) :
    (f <$> (Except.error e : Except ε α)) = Except.error e := rfl

theorem decode_buffer_short (now : String) (b : List Nat) (h : b.length < 4) :
    decodeModbusMessage now (.buffer b) = .error (.frameTooShort "Message too short") := by
  simp [decodeModbusMessage, inputToBuffer, ebind_ok, ethrow_error, h]

theorem decode_buffer_badcrc (now : String) (b : List Nat) (h4 : ¬ b.length < 4)
    (hc : verifyCRC b = false) :
    decodeModbusMessage now (.buffer b) = .error (.checksum "CRC check failed") := by
  simp [decodeModbusMessage, inputToBuffer, ebind_ok, ethrow_error, h4, hc]

theorem decode_buffer_fc03 (now : String) (b : List Nat) (h4 : ¬ b.length < 4)
    (hc : verifyCRC b = true) (hfc : b.getD 1 0 = 3) :
    decodeModbusMessage now (.buffer b) =
      (fun regs => (⟨b.getD 0 0, 3, "Read Holding Registers", bufferToHexUpper b,
          now, regs, none⟩ : DecodedData)) <$> fc03Loop b ((b.getD 2 0 + 1) / 2) 0 := by
  simp only [List.getD_eq_getElem?_getD] at hfc
  simp [decodeModbusMessage, inputToBuffer, ebind_ok, h4, hc, hfc, getFunctionName]

theorem decode_buffer_fc06 (now : String) (b : List Nat) (h4 : ¬ b.length < 4)
    (hc : verifyCRC b = true) (hfc : b.getD 1 0 = 6) (h6 : 6 ≤ b.length) :
    decodeModbusMessage now (.buffer b) =
      .ok ⟨b.getD 0 0, 6, "Write Single Register", bufferToHexUpper b, now,
        (match MODBUS_REGISTERS (256 * b.getD 2 0 + b.getD 3 0) with
         | some register =>
           [(register.name,
             ⟨decodeRegisterValue register (256 * b.getD 4 0 + b.getD 5 0),
               register.unit, register.description, 256 * b.getD 2 0 + b.getD 3 0,
               some register.readOnly, some "write"⟩)]
         | none => []), none⟩ := by
  have hr2 : readUInt16BE b 2 = .ok (256 * b.getD 2 0 + b.getD 3 0) := by
    unfold readUInt16BE
    rw [if_pos (by omega)]
  have hr4 : readUInt16BE b 4 = .ok (256 * b.getD 4 0 + b.getD 5 0) := by
    unfold readUInt16BE
    rw [if_pos (by omega)]
  simp only [List.getD_eq_getElem?_getD] at hfc hr2 hr4
  simp only [decodeModbusMessage, inputToBuffer, ebind_ok, h4, hc, hfc, hr2, hr4,
    getFunctionName, if_false, if_neg, Bool.not_true, Bool.false_eq_true,
    List.getD_eq_getElem?_getD, ite_false, ite_true, if_pos]
  norm_num
  split <;> simp [epure_ok]

theorem decode_buffer_fc06_short (now : String) (b : List Nat) (h4 : ¬ b.length < 4)
    (hc : verifyCRC b = true) (hfc : b.getD 1 0 = 6) (h6 : b.length < 6) :
    decodeModbusMessage now (.buffer b) = .error .outOfRange := by
  have hr2 : readUInt16BE b 2 = .ok (256 * b.getD 2 0 + b.getD 3 0) := by
    unfold readUInt16BE
    rw [if_pos (by omega)]
  have hr4 : readUInt16BE b 4 = .error .outOfRange := by
    unfold readUInt16BE
    rw [if_neg (by omega)]
  simp only [List.getD_eq_getElem?_getD] at hfc hr2 hr4
  simp [decodeModbusMessage, inputToBuffer, ebind_ok, ebind_error, h4, hc, hfc, hr2, hr4]

theorem decode_buffer_fc83 (now : String) (b : List Nat) (h4 : ¬ b.length < 4)
    (hc : verifyCRC b = true) (hfc : b.getD 1 0 = 131) :
    decodeModbusMessage now (.buffer b) =
      .ok ⟨b.getD 0 0, 131, "Error Response", bufferToHexUpper b, now, [],
        some ⟨b.getD 2 0,
          "Modbus Error: " ++
            ((match b.getD 2 0 with
              | 1 => some "Illegal Function"
              | 2 => some "Illegal Data Address"
              | 3 => some "Illegal Data Value"
              | 4 => some "Server Device Failure"
              | _ => none : Option String)).getD "Unknown error", true⟩⟩ := by
  simp only [List.getD_eq_getElem?_getD] at hfc
  simp [decodeModbusMessage, inputToBuffer, ebind_ok, epure_ok, h4, hc, hfc, getFunctionName]

theorem decode_buffer_fcOther (now : String) (b : List Nat) (h4 : ¬ b.length < 4)
    (hc : verifyCRC b = true) (hfc3 : b.getD 1 0 ≠ 3) (hfc6 : b.getD 1 0 ≠ 6)
    (hfc83 : b.getD 1 0 ≠ 131) :
    decodeModbusMessage now (.buffer b) =
      .ok ⟨b.getD 0 0, b.getD 1 0, getFunctionName (b.getD 1 0), bufferToHexUpper b,
        now, [], none⟩ := by
  simp only [List.getD_eq_getElem?_getD] at hfc3 hfc6 hfc83
  simp [decodeModbusMessage, inputToBuffer, ebind_ok, epure_ok, h4, hc, hfc3, hfc6, hfc83]

theorem errDesc_getD_eq (c : Nat) :
    ((match c with
      | 1 => some "Illegal Function"
      | 2 => some "Illegal Data Address"
      | 3 => some "Illegal Data Value"
      | 4 => some "Server Device Failure"
      | _ => none : Option String)).getD "Unknown error" =
    (if c = 1 then "Illegal Function" else if c = 2 then "Illegal Data Address"
     else if c = 3 then "Illegal Data Value" else if c = 4 then "Server Device Failure"
     else "Unknown error") := by
  split <;> simp_all

theorem decode_eq_of_norm (now : String) (input : ModbusInput) (b : List Nat)
    (hib : inputToBuffer input = .ok b) :
    decodeModbusMessage now input = decodeModbusMessage now (.buffer b) := by
  unfold decodeModbusMessage
  rw [hib]
  rfl

/-! ## Claim theorems -/

/-- Claim C1: `calculateCRC16` is exactly the Modbus CRC-16 fold —
accumulator initialized to `0xFFFF`, each byte XORed into it and followed
by eight shift/`0xA001` rounds — and `verifyCRC` succeeds iff the frame has
at least 2 bytes and the little-endian 16-bit integer in its last two bytes
equals the CRC computed over all preceding bytes (so it fails on every
frame of fewer than 2 bytes). -/
theorem crc_verifier_spec_c1 (data : List Nat) :
    calculateCRC16 data =
      data.foldl (fun crc b =>
        (fun c => if c % 2 = 1 then (c / 2) ^^^ 0xA001 else c / 2)^[8] (crc ^^^ b)) 0xFFFF
    ∧ (verifyCRC data = true ↔
        2 ≤ data.length ∧
          data.getD (data.length - 2) 0 + 256 * data.getD (data.length - 1) 0 =
            calculateCRC16 (data.take (data.length - 2))) := by
  constructor
  · rfl
  · unfold verifyCRC
    by_cases h : data.length < 2
    · simp only [if_pos h, Bool.false_eq_true, false_iff, not_and]
      intro h2
      omega
    · simp only [if_neg h, decide_eq_true_eq]
      constructor
      · intro he
        exact ⟨by omega, he⟩
      · intro he
        exact he.2

/-- Claim C2: for every byte sequence, appending its CRC-16 (as computed by
the implementation) in little-endian byte order produces a frame whose CRC
verification succeeds; the computed CRC indeed fits in 16 bits. -/
theorem crc_append_roundtrip_c2 (b : List Nat) (hb : ∀ x ∈ b, x < 256) :
    calculateCRC16 b < 65536 ∧
      verifyCRC (b ++ [calculateCRC16 b % 256, calculateCRC16 b / 256]) = true := by
  refine ⟨calculateCRC16_lt hb, ?_⟩
  set crc := calculateCRC16 b with hcrc
  set L := b ++ [crc % 256, crc / 256] with hL
  have hlen : L.length = b.length + 2 := by simp [hL]
  have hnot : ¬ L.length < 2 := by omega
  unfold verifyCRC
  rw [if_neg hnot]
  have htake : L.take (L.length - 2) = b := by
    rw [hlen]
    simp only [hL, Nat.add_sub_cancel]
    rw [List.take_append_of_le_length (le_refl b.length)]
    simp
  have hget1 : L.getD (L.length - 2) 0 = crc % 256 := by
    rw [hlen, Nat.add_sub_cancel, hL, List.getD_append_right _ _ _ _ (le_refl b.length)]
    simp
  have hget2 : L.getD (L.length - 1) 0 = crc / 256 := by
    rw [hlen]
    have : b.length + 2 - 1 = b.length + 1 := by omega
    rw [this, hL, List.getD_append_right _ _ _ _ (by omega)]
    have : b.length + 1 - b.length = 1 := by omega
    rw [this]
    simp
  rw [hget1, hget2, htake]
  simp [Nat.mod_add_div, hcrc]

theorem fc03Loop_ok_of_reads (b : List Nat) :
    ∀ count i, (∀ j, i ≤ j → j < i + count → 3 + j * 2 + 2 ≤ b.length) →
      ∃ regs, fc03Loop b count i = .ok regs := by
  intro count
  induction count with
  | zero =>
    intro i _
    exact ⟨[], rfl⟩
  | succ k ih =>
    intro i h
    obtain ⟨regs, hregs⟩ := ih (i + 1) (fun j h1 h2 => h j (by omega) (by omega))
    have hr : readUInt16BE b (3 + i * 2) =
        .ok (256 * b.getD (3 + i * 2) 0 + b.getD (3 + i * 2 + 1) 0) := by
      unfold readUInt16BE
      rw [if_pos (by have := h i le_rfl (by omega); omega)]
    rw [fc03Loop, hr, ebind_ok, hregs, ebind_ok]
    exact ⟨_, rfl⟩

/-- Witness for C2 at the concrete byte sequence `[0x3f, 0x03]`. -/
theorem crc_append_roundtrip_c2_witness :
    (∀ x ∈ [0x3f, 0x03], x < 256) ∧
      (calculateCRC16 [0x3f, 0x03] < 65536 ∧
        verifyCRC ([0x3f, 0x03] ++
          [calculateCRC16 [0x3f, 0x03] % 256, calculateCRC16 [0x3f, 0x03] / 256]) = true) :=
  ⟨by decide, crc_append_roundtrip_c2 [0x3f, 0x03] (by decide)⟩

theorem testBit_zero_eq_and (n : Nat) : n.testBit 0 = decide (n &&& 1 ≠ 0) := by
  rw [Nat.and_one_is_mod, Nat.testBit_zero]
  exact decide_eq_decide.mpr (by omega)

theorem testBit_one_eq_and (n : Nat) : n.testBit 1 = decide (n &&& 2 ≠ 0) := by
  have h := Nat.and_two_pow n 1
  norm_num at h
  rw [h]
  cases hb : n.testBit 1 <;> simp [hb]

theorem ERROR_CODES_isSome (raw : Nat) : (ERROR_CODES raw).isSome ↔ raw ≤ 16 := by
  unfold ERROR_CODES
  split <;> simp_all <;> omega

theorem statusMap_getD_eq (raw : Nat) :
    ((match raw with
      | 0 => some "invalid"
      | 1 => some "running"
      | 4 => some "stop"
      | 17 => some "error reset"
      | _ => none : Option String)).getD "Unknown status" =
    (if raw = 0 then "invalid" else if raw = 1 then "running" else if raw = 4 then "stop"
     else if raw = 17 then "error reset" else "Unknown status") := by
  split <;> simp_all

theorem rangeMap_getD_eq (raw : Nat) :
    ((match raw with
      | 6 => some "6 bar"
      | 10 => some "10 bar"
      | 16 => some "16 bar"
      | 25 => some "25 bar"
      | _ => none : Option String)).getD ("Unknown (" ++ toString raw ++ ")") =
    (if raw = 6 then "6 bar" else if raw = 10 then "10 bar" else if raw = 16 then "16 bar"
     else if raw = 25 then "25 bar" else "Unknown (" ++ toString raw ++ ")") := by
  split <;> simp_all

/-- Claim C5: `decodeRegisterValue` applies the five per-address overrides
before the generic rule — 0x0006 maps through the 17-entry error table
(`ERROR_CODES` is populated exactly for codes 0–16) with default
"Unknown error"; 0x0007 decomposes bit 0 into `water_shortage` and bit 1
into `running`; 0x0014 yields 'H' exactly for raw value 72 and 'L'
otherwise; 0x1001 maps {0, 1, 4, 17} with default "Unknown status"; 0x0019
maps {6, 10, 16, 25} to "<n> bar" with default "Unknown (<raw_value>)" —
and for every other address of the register table yields
`value = round3 (raw * scale)` when a scale is present and `raw` itself
otherwise.  The decoder is a total function, so no path can fail. -/
theorem decodeRegisterValue_spec_c5 (addr : Nat) (register : ModbusRegister)
    (hreg : MODBUS_REGISTERS addr = some register) (raw : Nat) :
    (register.address = 0x0006 →
      decodeRegisterValue register raw =
        .errorCode raw ((ERROR_CODES raw).getD "Unknown error") raw)
    ∧ (register.address = 0x0007 →
      decodeRegisterValue register raw =
        .statusFlags (raw.testBit 0) (raw.testBit 1) raw)
    ∧ (register.address = 0x0014 →
      decodeRegisterValue register raw =
        .carrierFreq (if raw = 72 then "H" else "L") raw raw)
    ∧ (register.address = 0x1001 →
      decodeRegisterValue register raw =
        .statusCommand raw
          (if raw = 0 then "invalid" else if raw = 1 then "running"
           else if raw = 4 then "stop" else if raw = 17 then "error reset"
           else "Unknown status") raw)
    ∧ (register.address = 0x0019 →
      decodeRegisterValue register raw =
        .measurementRange
          (if raw = 6 then "6 bar" else if raw = 10 then "10 bar"
           else if raw = 16 then "16 bar" else if raw = 25 then "25 bar"
           else "Unknown (" ++ toString raw ++ ")") raw raw)
    ∧ (register.address ≠ 0x0006 → register.address ≠ 0x0007 →
       register.address ≠ 0x0014 → register.address ≠ 0x1001 →
       register.address ≠ 0x0019 →
      decodeRegisterValue register raw =
        .generic (match register.scale with
                  | some s => round3 (raw * s)
                  | none => (raw : ℚ)) raw)
    ∧ ((ERROR_CODES raw).isSome ↔ raw ≤ 16) := by
  unfold MODBUS_REGISTERS at hreg
  split at hreg <;>
    first
      | exact Option.noConfusion hreg
      | (injection hreg with h
         subst h
         refine ⟨?_, ?_, ?_, ?_, ?_, ?_, ERROR_CODES_isSome raw⟩ <;> intros <;>
           simp_all [decodeRegisterValue, decodeStatusRegister,
             testBit_zero_eq_and, testBit_one_eq_and,
             statusMap_getD_eq, rangeMap_getD_eq])

/-- Witness for C5: the status-flag override at raw value 3 and the
generic scaled rule at raw value 500 on table registers. -/
theorem decodeRegisterValue_spec_c5_witness :
    decodeRegisterValue ⟨0x0007, "status_code", "", "Status code", true, none⟩ 3 =
      .statusFlags (Nat.testBit 3 0) (Nat.testBit 3 1) 3 ∧
    decodeRegisterValue
        ⟨0x0001, "output_frequency", "0.1 Hz", "Current output frequency value",
          true, some (1/10)⟩ 500 =
      .generic (round3 (500 * (1/10))) 500 :=
  ⟨(decodeRegisterValue_spec_c5 0x0007
      ⟨0x0007, "status_code", "", "Status code", true, none⟩ rfl 3).2.1 rfl,
   (decodeRegisterValue_spec_c5 0x0001
      ⟨0x0001, "output_frequency", "0.1 Hz", "Current output frequency value",
        true, some (1/10)⟩ rfl 500).2.2.2.2.2.1
     (by decide) (by decide) (by decide) (by decide) (by decide)⟩

/-- Claim C3 (amended): decoding raises `inputFormat` on an unsupported
input type and on a hex string with an odd digit count after whitespace
stripping (in both cases the frame bytes are never examined, so no CRC
check happens); `frameTooShort` on a normalized frame of fewer than 4
bytes; `checksum` on a frame of at least 4 bytes whose CRC comparison
fails — each failure terminal, the `Except` result carrying no partial
frame.  These are however not the only failures: a frame that passes the
CRC check can still fail with `outOfRange` when a register read extends
past the frame, as the last conjunct shows on a concrete 5-byte frame
declaring a byte count of 4. -/
theorem decode_error_cases_c3 (now : String) :
    (decodeModbusMessage now .other =
      .error (.inputFormat "Unsupported input type. Expected Buffer, hex string or number array."))
    ∧ (∀ s : String, (stripWhitespace s).length % 2 ≠ 0 →
        decodeModbusMessage now (.hexString s) =
          .error (.inputFormat "Invalid hex string length"))
    ∧ (∀ b : List Nat, b.length < 4 →
        decodeModbusMessage now (.buffer b) =
          .error (.frameTooShort "Message too short"))
    ∧ (∀ b : List Nat, 4 ≤ b.length → verifyCRC b = false →
        decodeModbusMessage now (.buffer b) =
          .error (.checksum "CRC check failed"))
    ∧ decodeModbusMessage now (.buffer [63, 3, 4, 64, 255]) = .error .outOfRange := by
  refine ⟨rfl, ?_, ?_, ?_, rfl⟩
  · intro s hs
    simp [decodeModbusMessage, inputToBuffer, hs, ebind_error]
  · intro b hb
    exact decode_buffer_short now b hb
  · intro b hb hc
    exact decode_buffer_badcrc now b (by omega) hc

/-- Counterexample to C3 as stated: the frame `[63, 3, 4, 64, 255]` has 5
(≥ 4) bytes and passes the CRC check, yet decoding fails — with
`outOfRange`, a fourth failure case beyond the three the claim allows. -/
theorem decode_error_cases_c3_counterexample :
    4 ≤ ([63, 3, 4, 64, 255] : List Nat).length ∧
    verifyCRC [63, 3, 4, 64, 255] = true ∧
    decodeModbusMessage "2024-01-01T00:00:00.000Z" (.buffer [63, 3, 4, 64, 255]) =
      .error .outOfRange :=
  ⟨by decide, by decide, rfl⟩

/-- Witness for C3: the three typed-failure cases at concrete inputs. -/
theorem decode_error_cases_c3_witness :
    ((stripWhitespace "3f030").length % 2 ≠ 0 ∧
      decodeModbusMessage "T" (.hexString "3f030") =
        .error (.inputFormat "Invalid hex string length")) ∧
    (([63, 3, 2] : List Nat).length < 4 ∧
      decodeModbusMessage "T" (.buffer [63, 3, 2]) =
        .error (.frameTooShort "Message too short")) ∧
    (4 ≤ ([1, 2, 3, 4] : List Nat).length ∧ verifyCRC [1, 2, 3, 4] = false ∧
      decodeModbusMessage "T" (.buffer [1, 2, 3, 4]) =
        .error (.checksum "CRC check failed")) :=
  ⟨⟨by decide, (decode_error_cases_c3 "T").2.1 "3f030" (by decide)⟩,
   ⟨by decide, (decode_error_cases_c3 "T").2.2.1 [63, 3, 2] (by decide)⟩,
   ⟨by decide, by decide,
     (decode_error_cases_c3 "T").2.2.2.1 [1, 2, 3, 4] (by decide) (by decide)⟩⟩

/-- Claim C4 (amended): an input that normalizes, has at least 4 bytes and
passes CRC verification decodes to a fully-formed frame for every function
code and payload, provided every function-specific register read stays
inside the frame — for function code 3, each read at offset `3 + 2*i` with
`i < byteCount / 2` must fit; for function code 6 the frame must have at
least 6 bytes.  A function-code-3 frame whose declared byte count exceeds
the available bytes, or a function-code-6 frame of fewer than 6 bytes,
instead fails with `outOfRange` (see the counterexample). -/
theorem decode_total_c4 (now : String) (b : List Nat)
    (h4 : 4 ≤ b.length) (hcrc : verifyCRC b = true)
    (h03 : b.getD 1 0 = 3 → ∀ i, 2 * i < b.getD 2 0 → 3 + i * 2 + 2 ≤ b.length)
    (h06 : b.getD 1 0 = 6 → 6 ≤ b.length) :
    ∃ r, decodeModbusMessage now (.buffer b) = .ok r := by
  by_cases hfc3 : b.getD 1 0 = 3
  · obtain ⟨regs, hregs⟩ :=
      fc03Loop_ok_of_reads b ((b.getD 2 0 + 1) / 2) 0
        (fun j _ hj => h03 hfc3 j (by omega))
    rw [decode_buffer_fc03 now b (by omega) hcrc hfc3, hregs, emap_ok]
    exact ⟨_, rfl⟩
  · by_cases hfc6 : b.getD 1 0 = 6
    · rw [decode_buffer_fc06 now b (by omega) hcrc hfc6 (h06 hfc6)]
      exact ⟨_, rfl⟩
    · by_cases hfc83 : b.getD 1 0 = 131
      · rw [decode_buffer_fc83 now b (by omega) hcrc hfc83]
        exact ⟨_, rfl⟩
      · rw [decode_buffer_fcOther now b (by omega) hcrc hfc3 hfc6 hfc83]
        exact ⟨_, rfl⟩

/-- Counterexample to C4 as stated: `[63, 6, 144, 66]` is a 4-byte
function-code-6 frame (shorter than 8 bytes) that passes CRC verification,
yet decoding raises `outOfRange` instead of producing a frame. -/
theorem decode_total_c4_counterexample :
    4 ≤ ([63, 6, 144, 66] : List Nat).length ∧
    verifyCRC [63, 6, 144, 66] = true ∧
    decodeModbusMessage "2024-01-01T00:00:00.000Z" (.buffer [63, 6, 144, 66]) =
      .error .outOfRange :=
  ⟨by decide, by decide, rfl⟩

/-- Witness for C4 at a concrete in-range function-code-3 frame. -/
theorem decode_total_c4_witness :
    (4 ≤ ([63, 3, 2, 0, 5, 81, 130] : List Nat).length ∧
      verifyCRC [63, 3, 2, 0, 5, 81, 130] = true) ∧
    ∃ r, decodeModbusMessage "T" (.buffer [63, 3, 2, 0, 5, 81, 130]) = .ok r :=
  ⟨⟨by decide, by decide⟩,
    decode_total_c4 "T" [63, 3, 2, 0, 5, 81, 130] (by decide) (by decide)
      (fun _ i hi => by
        rw [show List.getD [63, 3, 2, 0, 5, 81, 130] 2 0 = 2 from rfl] at hi
        rw [show List.length [63, 3, 2, 0, 5, 81, 130] = 7 from rfl]
        omega)
      (fun h => absurd h (by decide))⟩

theorem fc03Loop_eq_map (b : List Nat) :
    ∀ count i, (∀ j, i ≤ j → j < i + count → 3 + j * 2 + 2 ≤ b.length) →
      fc03Loop b count i =
        .ok ((List.range count).map (fun k =>
          fc03Entry (0x0001 + (i + k))
            (256 * b.getD (3 + (i + k) * 2) 0 + b.getD (3 + (i + k) * 2 + 1) 0))) := by
  intro count
  induction count with
  | zero =>
    intro i _
    rfl
  | succ k ih =>
    intro i h
    have hr : readUInt16BE b (3 + i * 2) =
        .ok (256 * b.getD (3 + i * 2) 0 + b.getD (3 + i * 2 + 1) 0) := by
      unfold readUInt16BE
      rw [if_pos (by have := h i le_rfl (by omega); omega)]
    rw [fc03Loop, hr, ebind_ok,
      ih (i + 1) (fun j h1 h2 => h j (by omega) (by omega)), ebind_ok]
    rw [epure_ok]
    refine congrArg Except.ok ?_
    rw [List.range_succ_eq_map, List.map_cons, List.map_map]
    refine congrArg₂ List.cons ?_ ?_
    · rfl
    · refine List.map_congr_left fun x _ => ?_
      simp only [Function.comp_apply]
      have hx : i + 1 + x = i + (x + 1) := by omega
      rw [hx]

/-- Claim C6: for a function-code-3 frame whose reads fit, the decoder
produces one `registers` entry per loop index `i` with `i < byteCount / 2`
(in JS real arithmetic, i.e. ⌈byteCount/2⌉ integer indices), reading a
16-bit big-endian value at offset `3 + 2*i` for logical register address
`0x0001 + i`; a table-known address yields an entry keyed by the
descriptor's name carrying the decoded value plus unit, description,
address and read-only flag, and an unknown address yields an entry keyed
`unknown_0x<4-hex-digit-address>` carrying the untouched raw value. -/
theorem fc03_parse_c6 (now : String) (b : List Nat)
    (h4 : 4 ≤ b.length) (hcrc : verifyCRC b = true) (hfc : b.getD 1 0 = 3)
    (hreads : ∀ i, 2 * i < b.getD 2 0 → 3 + i * 2 + 2 ≤ b.length) :
    (decodeModbusMessage now (.buffer b) =
      .ok ⟨b.getD 0 0, 3, "Read Holding Registers", bufferToHexUpper b, now,
        (List.range ((b.getD 2 0 + 1) / 2)).map (fun i =>
          fc03Entry (0x0001 + i)
            (256 * b.getD (3 + i * 2) 0 + b.getD (3 + i * 2 + 1) 0)), none⟩)
    ∧ (∀ a rv register, MODBUS_REGISTERS a = some register →
        fc03Entry a rv =
          (register.name,
            ⟨decodeRegisterValue register rv, register.unit, register.description,
              register.address, some register.readOnly, none⟩))
    ∧ (∀ a rv, MODBUS_REGISTERS a = none →
        fc03Entry a rv =
          ("unknown_0x" ++ padStart (natToHexLower a) 4 '0',
            ⟨.generic rv rv, "unknown", "Unknown register", a, none, none⟩)) := by
  refine ⟨?_, ?_, ?_⟩
  · rw [decode_buffer_fc03 now b (by omega) hcrc hfc,
      fc03Loop_eq_map b ((b.getD 2 0 + 1) / 2) 0 (fun j _ hj => hreads j (by omega)),
      emap_ok]
    simp only [Nat.zero_add]
  · intro a rv register hr
    unfold fc03Entry
    rw [hr]
  · intro a rv hr
    unfold fc03Entry
    rw [hr]

/-- Witness for C6 at a concrete 21-byte frame carrying 8 registers, the
eighth of which (address 0x0008) is absent from the register table. -/
theorem fc03_parse_c6_witness :
    (4 ≤ ([63, 3, 16, 0, 1, 0, 2, 0, 3, 0, 4, 0, 5, 0, 6, 0, 7, 1, 44, 86, 254] :
        List Nat).length ∧
      verifyCRC [63, 3, 16, 0, 1, 0, 2, 0, 3, 0, 4, 0, 5, 0, 6, 0, 7, 1, 44, 86, 254] = true) ∧
    decodeModbusMessage "T"
        (.buffer [63, 3, 16, 0, 1, 0, 2, 0, 3, 0, 4, 0, 5, 0, 6, 0, 7, 1, 44, 86, 254]) =
      .ok ⟨63, 3, "Read Holding Registers",
        bufferToHexUpper [63, 3, 16, 0, 1, 0, 2, 0, 3, 0, 4, 0, 5, 0, 6, 0, 7, 1, 44, 86, 254],
        "T",
        (List.range 8).map (fun i =>
          fc03Entry (0x0001 + i)
            (256 * List.getD [63, 3, 16, 0, 1, 0, 2, 0, 3, 0, 4, 0, 5, 0, 6, 0, 7, 1, 44, 86, 254]
                (3 + i * 2) 0 +
              List.getD [63, 3, 16, 0, 1, 0, 2, 0, 3, 0, 4, 0, 5, 0, 6, 0, 7, 1, 44, 86, 254]
                (3 + i * 2 + 1) 0)), none⟩ :=
  ⟨⟨by decide, by decide⟩,
    (fc03_parse_c6 "T" [63, 3, 16, 0, 1, 0, 2, 0, 3, 0, 4, 0, 5, 0, 6, 0, 7, 1, 44, 86, 254]
      (by decide) (by decide) (by decide)
      (fun i hi => by
        rw [show List.getD [63, 3, 16, 0, 1, 0, 2, 0, 3, 0, 4, 0, 5, 0, 6, 0, 7, 1, 44, 86, 254]
            2 0 = 16 from rfl] at hi
        rw [show List.length [63, 3, 16, 0, 1, 0, 2, 0, 3, 0, 4, 0, 5, 0, 6, 0, 7, 1, 44, 86, 254]
            = 21 from rfl]
        omega)).1⟩

/-- Claim C7: for a function-code-6 frame the parser reads a 16-bit
big-endian register address at offset 2 and a 16-bit big-endian value at
offset 4; a table-known address yields exactly one `registers` entry
tagged with `operation := "write"`, while an unknown address yields no
entry at all — asymmetrically with the 0x03 path. -/
theorem fc06_write_c7 (now : String) (b : List Nat)
    (h4 : 4 ≤ b.length) (hcrc : verifyCRC b = true) (hfc : b.getD 1 0 = 6)
    (h6 : 6 ≤ b.length) :
    (∀ register, MODBUS_REGISTERS (256 * b.getD 2 0 + b.getD 3 0) = some register →
      decodeModbusMessage now (.buffer b) =
        .ok ⟨b.getD 0 0, 6, "Write Single Register", bufferToHexUpper b, now,
          [(register.name,
            ⟨decodeRegisterValue register (256 * b.getD 4 0 + b.getD 5 0),
              register.unit, register.description, 256 * b.getD 2 0 + b.getD 3 0,
              some register.readOnly, some "write"⟩)], none⟩)
    ∧ (MODBUS_REGISTERS (256 * b.getD 2 0 + b.getD 3 0) = none →
      decodeModbusMessage now (.buffer b) =
        .ok ⟨b.getD 0 0, 6, "Write Single Register", bufferToHexUpper b, now,
          [], none⟩) := by
  constructor
  · intro register hr
    rw [decode_buffer_fc06 now b (by omega) hcrc hfc h6, hr]
  · intro hr
    rw [decode_buffer_fc06 now b (by omega) hcrc hfc h6, hr]

/-- Witness for C7: a write acknowledgment for known address 0x0001 yields
one write-tagged entry; one for unknown address 0x0009 yields none. -/
theorem fc06_write_c7_witness :
    decodeModbusMessage "T" (.buffer [63, 6, 0, 1, 0, 100, 221, 63]) =
      .ok ⟨63, 6, "Write Single Register",
        bufferToHexUpper [63, 6, 0, 1, 0, 100, 221, 63], "T",
        [("output_frequency",
          ⟨decodeRegisterValue
              ⟨0x0001, "output_frequency", "0.1 Hz", "Current output frequency value",
                true, some (1/10)⟩ 100,
            "0.1 Hz", "Current output frequency value", 1, some true, some "write"⟩)],
        none⟩ ∧
    decodeModbusMessage "T" (.buffer [63, 6, 0, 9, 0, 5, 157, 21]) =
      .ok ⟨63, 6, "Write Single Register",
        bufferToHexUpper [63, 6, 0, 9, 0, 5, 157, 21], "T", [], none⟩ :=
  ⟨(fc06_write_c7 "T" [63, 6, 0, 1, 0, 100, 221, 63]
      (by decide) (by decide) (by decide) (by decide)).1
    ⟨0x0001, "output_frequency", "0.1 Hz", "Current output frequency value",
      true, some (1/10)⟩ rfl,
   (fc06_write_c7 "T" [63, 6, 0, 9, 0, 5, 157, 21]
      (by decide) (by decide) (by decide) (by decide)).2 rfl⟩

/-- Claim C8: a function-code-0x83 frame decodes to a frame whose error
field carries code `byte[2]` and description "Modbus Error: <text>" from
the four-entry exception map with default "Unknown error", with the
registers map empty; in particular hex input `3f8302a13d` decodes with
function code 131, function name "Error Response", error code 2 and
description "Modbus Error: Illegal Data Address". -/
theorem fc83_exception_c8 (now : String) (b : List Nat)
    (h4 : 4 ≤ b.length) (hcrc : verifyCRC b = true) (hfc : b.getD 1 0 = 131) :
    (decodeModbusMessage now (.buffer b) =
      .ok ⟨b.getD 0 0, 131, "Error Response", bufferToHexUpper b, now, [],
        some ⟨b.getD 2 0,
          "Modbus Error: " ++
            (if b.getD 2 0 = 1 then "Illegal Function"
             else if b.getD 2 0 = 2 then "Illegal Data Address"
             else if b.getD 2 0 = 3 then "Illegal Data Value"
             else if b.getD 2 0 = 4 then "Server Device Failure"
             else "Unknown error"), true⟩⟩)
    ∧ (∀ ts, decodeModbusMessage ts (.hexString "3f8302a13d") =
        .ok ⟨63, 131, "Error Response", "3F8302A13D", ts, [],
          some ⟨2, "Modbus Error: Illegal Data Address", true⟩⟩) := by
  constructor
  · rw [decode_buffer_fc83 now b (by omega) hcrc hfc, errDesc_getD_eq]
  · intro ts
    rfl

/-- Witness for C8 at the concrete exception frame `3f 83 02 a1 3d`. -/
theorem fc83_exception_c8_witness :
    decodeModbusMessage "T" (.buffer [63, 131, 2, 161, 61]) =
      .ok ⟨63, 131, "Error Response", "3F8302A13D", "T", [],
        some ⟨2, "Modbus Error: Illegal Data Address", true⟩⟩ :=
  (fc83_exception_c8 "T" [63, 131, 2, 161, 61] (by decide) (by decide) (by decide)).1

/-- Claim C9 (amended): the decoder itself attaches the capture timestamp:
every successfully decoded input yields a result whose `timestamp` field
is the capture time, alongside `slave_address`, `function_code`,
`function_name`, `raw_data`, `registers` and the optional `error` — the
timestamp is not left to an assembling layer. -/
theorem decoder_timestamp_c9 (now : String) (input : ModbusInput) (r : DecodedData)
    (h : decodeModbusMessage now input = .ok r) : r.timestamp = now := by
  cases hib : inputToBuffer input with
  | error e =>
    unfold decodeModbusMessage at h
    rw [hib, ebind_error] at h
    exact Except.noConfusion h
  | ok buffer =>
    rw [decode_eq_of_norm now input buffer hib] at h
    by_cases h4 : buffer.length < 4
    · rw [decode_buffer_short now buffer h4] at h
      exact Except.noConfusion h
    · cases hcrc : verifyCRC buffer with
      | false =>
        rw [decode_buffer_badcrc now buffer h4 hcrc] at h
        exact Except.noConfusion h
      | true =>
        by_cases hfc3 : buffer.getD 1 0 = 3
        · rw [decode_buffer_fc03 now buffer h4 hcrc hfc3] at h
          cases hl : fc03Loop buffer ((buffer.getD 2 0 + 1) / 2) 0 with
          | error e =>
            rw [hl, emap_error] at h
            exact Except.noConfusion h
          | ok regs =>
            rw [hl, emap_ok] at h
            injection h with h2
            rw [← h2]
        · by_cases hfc6 : buffer.getD 1 0 = 6
          · by_cases h6 : 6 ≤ buffer.length
            · rw [decode_buffer_fc06 now buffer h4 hcrc hfc6 h6] at h
              injection h with h2
              rw [← h2]
            · rw [decode_buffer_fc06_short now buffer h4 hcrc hfc6 (by omega)] at h
              exact Except.noConfusion h
          · by_cases hfc83 : buffer.getD 1 0 = 131
            · rw [decode_buffer_fc83 now buffer h4 hcrc hfc83] at h
              injection h with h2
              rw [← h2]
            · rw [decode_buffer_fcOther now buffer h4 hcrc hfc3 hfc6 hfc83] at h
              injection h with h2
              rw [← h2]

/-- Counterexample to C9 as stated: the core decode result does contain a
capture timestamp — decoding the same exception frame with two different
clock values yields results carrying exactly those values, hence differing
results. -/
theorem decoder_timestamp_c9_counterexample :
    (decodeModbusMessage "2024-01-01T00:00:00.000Z" (.hexString "3f8302a13d")).map
        DecodedData.timestamp = .ok "2024-01-01T00:00:00.000Z" ∧
    (decodeModbusMessage "2024-01-02T00:00:00.000Z" (.hexString "3f8302a13d")).map
        DecodedData.timestamp = .ok "2024-01-02T00:00:00.000Z" ∧
    decodeModbusMessage "2024-01-01T00:00:00.000Z" (.hexString "3f8302a13d") ≠
      decodeModbusMessage "2024-01-02T00:00:00.000Z" (.hexString "3f8302a13d") := by
  refine ⟨rfl, rfl, ?_⟩
  intro heq
  have h2 := congrArg (Except.map DecodedData.timestamp) heq
  have h3 : "2024-01-01T00:00:00.000Z" = "2024-01-02T00:00:00.000Z" :=
    Except.ok.inj h2
  exact absurd h3 (by decide)

/-- Witness for C9 at the concrete exception frame. -/
theorem decoder_timestamp_c9_witness :
    DecodedData.timestamp
        ⟨63, 131, "Error Response", "3F8302A13D", "T", [],
          some ⟨2, "Modbus Error: Illegal Data Address", true⟩⟩ = "T" :=
  decoder_timestamp_c9 "T" (.hexString "3f8302a13d")
    ⟨63, 131, "Error Response", "3F8302A13D", "T", [],
      some ⟨2, "Modbus Error: Illegal Data Address", true⟩⟩ rfl

/-- Claim C10: an integer-array input is normalized by truncating each
element modulo 256 — it is never rejected — and two arrays whose elements
are congruent modulo 256 decode identically. -/
theorem array_input_mod256_c10 (now : String) (a a' : List Int)
    (h : a.map (fun v => v % 256) = a'.map (fun v => v % 256)) :
    inputToBuffer (.numberArray a) = .ok (a.map (fun v => (v % 256).toNat)) ∧
    decodeModbusMessage now (.numberArray a) =
      decodeModbusMessage now (.numberArray a') := by
  refine ⟨rfl, ?_⟩
  have hb : a.map (fun v => (v % 256).toNat) = a'.map (fun v => (v % 256).toNat) := by
    have h1 : a.map (fun v => (v % 256).toNat) =
        (a.map (fun v => v % 256)).map Int.toNat := by
      rw [List.map_map]
      rfl
    have h2 : a'.map (fun v => (v % 256).toNat) =
        (a'.map (fun v => v % 256)).map Int.toNat := by
      rw [List.map_map]
      rfl
    rw [h1, h2, h]
  have hib : inputToBuffer (.numberArray a') = .ok (a.map (fun v => (v % 256).toNat)) := by
    rw [show inputToBuffer (.numberArray a') =
        .ok (a'.map (fun v => (v % 256).toNat)) from rfl, hb]
  rw [decode_eq_of_norm now (.numberArray a) _ rfl,
    decode_eq_of_norm now (.numberArray a') _ hib]

/-- Witness for C10: `[300, -1, 63, 3]` and `[44, 255, 319, 259]` are
congruent modulo 256 and normalize to the same bytes without failure. -/
theorem array_input_mod256_c10_witness :
    (([300, -1, 63, 3] : List Int).map (fun v => v % 256) =
      ([44, 255, 319, 259] : List Int).map (fun v => v % 256)) ∧
    (inputToBuffer (.numberArray [300, -1, 63, 3]) = .ok [44, 255, 63, 3] ∧
      decodeModbusMessage "T" (.numberArray [300, -1, 63, 3]) =
        decodeModbusMessage "T" (.numberArray [44, 255, 319, 259])) :=
  ⟨by decide, array_input_mod256_c10 "T" [300, -1, 63, 3] [44, 255, 319, 259] (by decide)⟩

end Ermangizer
